import Mathlib

set_option maxRecDepth 100000

/- Shallow embedding of the wireless access point controller found in
   network/access_point.go.  Go machine integers are modeled as Int with
   explicit clamping (strconv.Atoi) or wrapping (int arithmetic) at the
   64 bit bounds where overflow is reachable.  The float64 arithmetic of
   parseBtu is modeled exactly over the rationals.  Effectful operations
   take an oracle assigning to every remote command invocation a result,
   and thread an explicit World state that records the issued commands. -/

/-- Team, as consumed by the access point code: identifier and WPA key. -/
structure Team where
  Id : Int
  WpaKey : String
deriving DecidableEq

/-- Per station wifi status record. -/
structure TeamWifiStatus where
  TeamId : Int
  RadioLinked : Bool
  MBits : ℚ
deriving DecidableEq

/-- A full six slot station assignment, one optional team per station. -/
abbrev TeamAssignment := Fin 6 → Option Team

/-- Constant accessPointRequestBufferSize from the source. -/
def accessPointRequestBufferSize : Nat := 10

/-- The largest signed 64 bit integer, the Go int upper bound. -/
def int64Max : Int := 9223372036854775807

/-- The smallest signed 64 bit integer, the Go int lower bound. -/
def int64Min : Int := -9223372036854775808

/-- Clamping of an exact integer to the signed 64 bit range, as strconv.ParseInt
does on a range error (the clamped value is returned together with the error,
and the callers in this file discard the error). -/
def clampInt64 (v : Int) : Int :=
  if v < int64Min then int64Min else if v > int64Max then int64Max else v

/-- Wrapping of an exact integer into the signed 64 bit range, as Go int
addition and subtraction do on overflow. -/
def wrap64 (z : Int) : Int :=
  (z + 9223372036854775808) % 18446744073709551616 - 9223372036854775808

/-- Accumulates the decimal value of a digit list; none on a non digit. -/
def digitsValueAux : List Char → Nat → Option Nat
  | [], acc => some acc
  | c :: cs, acc =>
    if c.isDigit then digitsValueAux cs (acc * 10 + (c.toNat - 48)) else none

/-- The exact integer denoted by an optionally signed decimal string, none when
the string is not of that shape.  This is the syntax accepted by strconv.Atoi. -/
def numericValueOptChars (cs : List Char) : Option Int :=
  match cs with
  | [] => none
  | '-' :: rest =>
    match rest with
    | [] => none
    | _ => (digitsValueAux rest 0).map (fun n => -(n : Int))
  | '+' :: rest =>
    match rest with
    | [] => none
    | _ => (digitsValueAux rest 0).map (fun n => (n : Int))
  | _ => (digitsValueAux cs 0).map (fun n => (n : Int))

/-- Model of the Go idiom n, underscore := strconv.Atoi(s): syntax errors give 0,
range errors give the clamped 64 bit bound, since the error is discarded. -/
def goAtoiChars (cs : List Char) : Int :=
  match numericValueOptChars cs with
  | none => 0
  | some v => clampInt64 v

/-- goAtoiChars on a String. -/
def goAtoi (s : String) : Int := goAtoiChars s.data

/-- A string is numeric when it is an optionally signed nonempty digit string. -/
def isNumericStr (s : String) : Bool := (numericValueOptChars s.data).isSome

/-- addConfigurationHeader from the source. -/
def addConfigurationHeader (commandList : String) : String :=
  "uci batch <<ENDCONFIG\n" ++ commandList ++ "\nENDCONFIG\n"

/-- The ssid and key computation of generateTeamAccessPointConfig, including
the WPA key validation.  The key length check is on the byte length of the
key, as Go len is.  Single quotes inside strings are written with the x27
escape. -/
def teamSsidKey (team : Option Team) (position : Int) :
    Except String (String × String) :=
  match team with
  | none =>
    Except.ok ("no-team-" ++ toString position, "no-team-" ++ toString position)
  | some t =>
    if t.WpaKey.utf8ByteSize < 8 ∨ t.WpaKey.utf8ByteSize > 63 then
      Except.error ("invalid WPA key \x27" ++ t.WpaKey ++
        "\x27 configured for team " ++ toString t.Id)
    else
      Except.ok (toString t.Id, t.WpaKey)

/-- generateTeamAccessPointConfig from the source.  The receiver field
isVividType is passed explicitly. -/
def generateTeamAccessPointConfig (isVividType : Bool) (team : Option Team)
    (position : Int) : Except String String :=
  if position < 1 ∨ position > 6 then
    Except.error ("invalid team position " ++ toString position)
  else
    match teamSsidKey team position with
    | Except.error e => Except.error e
    | Except.ok (ssid, key) =>
      Except.ok (String.intercalate ("\n")
        (["set wireless.@wifi-iface[" ++ toString position ++ "].disabled=\x270\x27",
          "set wireless.@wifi-iface[" ++ toString position ++ "].ssid=\x27" ++ ssid ++ "\x27",
          "set wireless.@wifi-iface[" ++ toString position ++ "].key=\x27" ++ key ++ "\x27"]
         ++ (if isVividType then
              ["set wireless.@wifi-iface[" ++ toString position ++
                 "].sae_password=\x27" ++ key ++ "\x27"]
             else [])))

/-- Boundary team with a 7 byte WPA key. -/
def team7 : Team := ⟨9611, ("1234567")⟩

/-- Boundary team with an 8 byte WPA key. -/
def team8 : Team := ⟨9611, ("12345678")⟩

/-- Boundary team with a 63 byte WPA key. -/
def team63 : Team :=
  ⟨254, ("012345678901234567890123456789012345678901234567890123456789012")⟩

/-- Boundary team with a 64 byte WPA key. -/
def team64 : Team :=
  ⟨254, ("0123456789012345678901234567890123456789012345678901234567890123")⟩

/-- The character class of both iwinfo regexes: dash, word characters and
space, the Go regexp class of dash, backslash w and space. -/
def wifiNameChar (c : Char) : Bool :=
  c = '-' || c = ' ' || c = '_' || c.isAlphanum

/-- Tries to match the regex ESSID colon quote group quote at the head of the
list; on success returns the first capture group and the suffix after the
match.  The class excludes the double quote, so the greedy group is the
maximal class run and the match is unique at a position. -/
def matchEssidAt (cs : List Char) : Option (String × List Char) :=
  if ("ESSID: \"").data.isPrefixOf cs then
    let rest := cs.drop (("ESSID: \"").data.length)
    match rest.dropWhile wifiNameChar with
    | '"' :: tail => some (⟨rest.takeWhile wifiNameChar⟩, tail)
    | _ => none
  else none

/-- Leftmost nonoverlapping scan for ESSID matches: on a failed position the
scan advances one character, on a match it resumes after the match, as the Go
FindAllStringSubmatch does.  Matches consume at least one character, so fuel
equal to the list length never runs out. -/
def essidScanAux : Nat → List Char → List String
  | 0, _ => []
  | _, [] => []
  | Nat.succ n, c :: cs =>
    match matchEssidAt (c :: cs) with
    | some (grp, rest) => grp :: essidScanAux n rest
    | none => essidScanAux n cs

/-- The first capture groups of all matches of the ESSID regex, in order. -/
def ssidMatches (s : String) : List String :=
  essidScanAux s.data.length s.data

/-- Tries to match the regex Link Quality colon group slash group at the head
of the list; on success returns both capture groups and the suffix after the
match.  Both groups are nonempty maximal class runs; the class excludes the
slash, so the match is unique at a position. -/
def matchLinkQualityAt (cs : List Char) : Option ((String × String) × List Char) :=
  if ("Link Quality: ").data.isPrefixOf cs then
    let rest := cs.drop (("Link Quality: ").data.length)
    if (rest.takeWhile wifiNameChar).isEmpty then none
    else
      match rest.dropWhile wifiNameChar with
      | '/' :: rest2 =>
        if (rest2.takeWhile wifiNameChar).isEmpty then none
        else
          some ((⟨rest.takeWhile wifiNameChar⟩, ⟨rest2.takeWhile wifiNameChar⟩),
            rest2.dropWhile wifiNameChar)
      | _ => none
  else none

/-- Leftmost nonoverlapping scan for link quality matches. -/
def lqScanAux : Nat → List Char → List (String × String)
  | 0, _ => []
  | _, [] => []
  | Nat.succ n, c :: cs =>
    match matchLinkQualityAt (c :: cs) with
    | some (grps, rest) => grps :: lqScanAux n rest
    | none => lqScanAux n cs

/-- The capture group pairs of all matches of the link quality regex. -/
def linkQualityMatches (s : String) : List (String × String) :=
  lqScanAux s.data.length s.data

/-- decodeWifiInfo from the source, acting on the six slot status array that
the single call site passes.  On the error path the statuses are returned
unchanged, mirroring the early return before the in place slice update. -/
def decodeWifiInfo (wifiInfo : String) (statuses : Fin 6 → TeamWifiStatus) :
    Option String × (Fin 6 → TeamWifiStatus) :=
  if h : (ssidMatches wifiInfo).length < 6 ∨ (linkQualityMatches wifiInfo).length < 6 then
    (some ("Could not parse wifi info; expected 6 team networks, got " ++
      toString (ssidMatches wifiInfo).length ++ "."), statuses)
  else
    (none, fun i =>
      { TeamId := goAtoi ((ssidMatches wifiInfo).get ⟨i.val, by have := i.isLt; omega⟩),
        RadioLinked :=
          ((linkQualityMatches wifiInfo).get ⟨i.val, by have := i.isLt; omega⟩).1 != ("unknown"),
        MBits := (statuses i).MBits })

/-- The all zero status array, the Go zero value of the status array field. -/
def zeroStatuses : Fin 6 → TeamWifiStatus :=
  fun _ => { TeamId := 0, RadioLinked := false, MBits := 0 }

/-- An iwinfo style dump with six networks, the first one numeric and linked,
the others placeholders with unknown link quality. -/
def sampleIwinfo : String :=
  "ESSID: \"254\"\nLink Quality: 70/70\nESSID: \"no-team-2\"\nLink Quality: unknown/70\nESSID: \"no-team-3\"\nLink Quality: unknown/70\nESSID: \"no-team-4\"\nLink Quality: unknown/70\nESSID: \"no-team-5\"\nLink Quality: unknown/70\nESSID: \"no-team-6\"\nLink Quality: unknown/70\n"

/-- An iwinfo style dump whose first network name is a 25 digit numeric string,
larger than the signed 64 bit range. -/
def overflowIwinfo : String :=
  "ESSID: \"9999999999999999999999999\"\nLink Quality: 70/70\nESSID: \"no-team-2\"\nLink Quality: unknown/70\nESSID: \"no-team-3\"\nLink Quality: unknown/70\nESSID: \"no-team-4\"\nLink Quality: unknown/70\nESSID: \"no-team-5\"\nLink Quality: unknown/70\nESSID: \"no-team-6\"\nLink Quality: unknown/70\n"

/-- Splits a character list around every nonoverlapping occurrence of the
separator, scanning left to right, as strings.Split does for a nonempty
separator.  Every step consumes at least one character, so fuel equal to the
initial length never runs out. -/
def splitOnCharsAux (sep : List Char) : Nat → List Char → List Char → List (List Char)
  | _, [], acc => [acc.reverse]
  | 0, rest, acc => [acc.reverse ++ rest]
  | Nat.succ n, c :: cs, acc =>
    if sep.isPrefixOf (c :: cs) then
      acc.reverse :: splitOnCharsAux sep n (List.drop sep.length (c :: cs)) []
    else
      splitOnCharsAux sep n cs (c :: acc)

/-- strings.Split on character lists. -/
def splitOnChars (sep s : List Char) : List (List Char) :=
  splitOnCharsAux sep s.length s []

/-- strings.TrimSpace, with the ASCII whitespace class. -/
def goTrimSpace (cs : List Char) : List Char :=
  ((cs.dropWhile Char.isWhitespace).reverse.dropWhile Char.isWhitespace).reverse

/-- strings.TrimLeft with the cutset consisting of the opening bracket. -/
def trimLeftBracket (cs : List Char) : List Char :=
  cs.dropWhile (fun c => c = '[')

/-- strings.TrimRight with the cutset consisting of the closing bracket. -/
def trimRightBracket (cs : List Char) : List Char :=
  (cs.reverse.dropWhile (fun c => c = ']')).reverse

/-- The comma separated fields of one sample line of the luci-bwc counter
dump, after trimming space and brackets, as parseBtu prepares them. -/
def sampleFields (line : List Char) : List (List Char) :=
  splitOnChars ([',']) (trimRightBracket (trimLeftBracket (goTrimSpace line)))

/-- The segments of the counter dump, split on the two character separator of
closing bracket and comma: the lines variable of parseBtu. -/
def btuLines (response : String) : List (List Char) :=
  splitOnChars ([']', ',']) response.data

/-- parseBtu from the source, over exact rationals.  Out of bounds list
indexing, which panics in Go, is modeled by the none result.  The byte deltas
are combined with wrapping Go int arithmetic before the float conversion. -/
def parseBtu (response : String) : Option ℚ :=
  if h : 6 < (btuLines response).length then
    match (sampleFields ((btuLines response).get
            ⟨(btuLines response).length - 1, by omega⟩)).get? 1,
          (sampleFields ((btuLines response).get
            ⟨(btuLines response).length - 1, by omega⟩)).get? 3,
          (sampleFields ((btuLines response).get
            ⟨(btuLines response).length - 6, by omega⟩)).get? 1,
          (sampleFields ((btuLines response).get
            ⟨(btuLines response).length - 6, by omega⟩)).get? 3 with
    | some rX, some tX, some rXOld, some tXOld =>
      some (((wrap64 (goAtoiChars (goTrimSpace rX) - goAtoiChars (goTrimSpace rXOld)
               + goAtoiChars (goTrimSpace tX) - goAtoiChars (goTrimSpace tXOld)) : Int) : ℚ)
            * (0.000008 : ℚ) / 5)
    | _, _, _, _ => none
  else some 0

/-- A seven sample luci-bwc counter dump. -/
def sampleBtu : String :=
  "[1, 10, 0, 20, 0],\n[2, 20, 0, 30, 0],\n[3, 30, 0, 40, 0],\n[4, 40, 0, 50, 0],\n[5, 50, 0, 60, 0],\n[6, 60, 0, 70, 0],\n[7, 110, 0, 120, 0]"

/-- A malformed counter dump with seven segments whose sample lines have only
one comma separated field. -/
def badBtu : String := "a],b],c],d],e],f],g"

/-- The mutable state of the AccessPoint structure.  The request channel is
none while it has not been created; once created it holds the queued
requests in arrival order, bounded by accessPointRequestBufferSize. -/
structure AccessPoint where
  isVividType : Bool
  address : String
  username : String
  password : String
  teamChannel : Int
  networkSecurityEnabled : Bool
  configRequestChan : Option (List TeamAssignment)
  TeamWifiStatuses : Fin 6 → TeamWifiStatus
  initialStatusesFetched : Bool

/-- The zero value of the AccessPoint structure: the state before any call to
SetSettings, with a nil request channel. -/
def initialAccessPoint : AccessPoint :=
  { isVividType := false, address := "", username := "", password := "",
    teamChannel := 0, networkSecurityEnabled := false,
    configRequestChan := none, TeamWifiStatuses := zeroStatuses,
    initialStatusesFetched := false }

/-- The access point state together with a count of remote commands issued so
far and the trace of issued command strings. -/
structure World where
  ap : AccessPoint
  clock : Nat
  trace : List String

/-- runCommand: the result of the next remote command is read off the oracle;
the command is appended to the trace and the access point state is untouched. -/
def runCommandM (oracle : Nat → Except String String) (command : String)
    (w : World) : Except String String × World :=
  (oracle w.clock, { w with clock := w.clock + 1, trace := w.trace ++ [command] })

/-- SetSettings from the source: overwrites the settings and creates the
request channel the first time it is called. -/
def SetSettings (isVividType : Bool) (address username password : String)
    (teamChannel : Int) (networkSecurityEnabled : Bool) (ap : AccessPoint) :
    AccessPoint :=
  let ap1 := { ap with
    isVividType := isVividType,
    address := address,
    username := username,
    password := password,
    teamChannel := teamChannel,
    networkSecurityEnabled := networkSecurityEnabled }
  if ap1.configRequestChan.isNone then
    { ap1 with configRequestChan := some [] }
  else ap1

/-- ConfigureAdminSettings from the source: a no op returning nil when network
security is disabled, otherwise one remote command whose error is returned. -/
def ConfigureAdminSettings (oracle : Nat → Except String String) (w : World) :
    Option String × World :=
  if w.ap.networkSecurityEnabled = false then (none, w)
  else
    let command := "uci batch <<ENDCONFIG && wifi radio0\n" ++
      String.intercalate ("\n")
        ["set wireless.radio0.channel=\x27" ++ toString w.ap.teamChannel ++ "\x27",
         "commit wireless"] ++ "\nENDCONFIG\n"
    let r := runCommandM oracle command w
    match r.1 with
    | Except.error e => (some e, r.2)
    | Except.ok _ => (none, r.2)

/-- ConfigureTeamWifi from the source: the nonblocking select send on the
buffered request channel.  A send on a nil or full channel takes the default
branch and returns the queue full error; otherwise the request is appended. -/
def ConfigureTeamWifi (teams : TeamAssignment) (ap : AccessPoint) :
    AccessPoint × Option String :=
  match ap.configRequestChan with
  | some q =>
    if q.length < accessPointRequestBufferSize then
      ({ ap with configRequestChan := some (q ++ [teams]) }, none)
    else (ap, some ("WiFi config request buffer full"))
  | none => (ap, some ("WiFi config request buffer full"))

/-- The drain loop of Run: after receiving one request, every further queued
request is received in turn and the last one received wins. -/
def drainAll (r : TeamAssignment) : List TeamAssignment → TeamAssignment
  | [] => r
  | r2 :: rest => drainAll r2 rest

/-- The request pickup of Run: none when the queue is empty; otherwise the
surviving request together with the emptied queue. -/
def runPickup (q : List TeamAssignment) :
    Option (TeamAssignment × List TeamAssignment) :=
  match q with
  | [] => none
  | r :: rest => some (drainAll r rest, [])

/-- The expected team id of a slot: 0 for an empty slot. -/
def expectedTeamId : Option Team → Int
  | none => 0
  | some t => t.Id

/-- configIsCorrectForTeams from the source: false until the first successful
status fetch, then a per slot comparison of the decoded team ids against the
requested assignment. -/
def configIsCorrectForTeams (ap : AccessPoint) (teams : TeamAssignment) : Bool :=
  if ap.initialStatusesFetched = false then false
  else
    (List.finRange 6).all
      (fun i => (ap.TeamWifiStatuses i).TeamId == expectedTeamId (teams i))

/-- updateTeamWifiStatuses from the source: a no op returning nil when network
security is disabled; otherwise one iwinfo command, decoding on success.  The
fetched flag becomes true only when both the command and the decode succeed. -/
def updateTeamWifiStatuses (oracle : Nat → Except String String) (w : World) :
    Option String × World :=
  if w.ap.networkSecurityEnabled = false then (none, w)
  else
    let r := runCommandM oracle ("iwinfo") w
    match r.1 with
    | Except.error e =>
      (some ("Error getting wifi info from AP: " ++ e), r.2)
    | Except.ok output =>
      let d := decodeWifiInfo output r.2.ap.TeamWifiStatuses
      match d.1 with
      | some e =>
        (some ("Error getting wifi info from AP: " ++ e),
         { r.2 with ap := { r.2.ap with TeamWifiStatuses := d.2 } })
      | none =>
        (none,
         { r.2 with ap := { r.2.ap with
             TeamWifiStatuses := d.2,
             initialStatusesFetched := true } })

/-- The interface name table of updateTeamWifiBTU, per device variant. -/
def infWifiName (vivid : Bool) (i : Fin 6) : String :=
  if vivid then
    match i.val with
    | 0 => "1" | 1 => "11" | 2 => "12" | 3 => "13" | 4 => "14" | _ => "15"
  else
    match i.val with
    | 0 => "0" | 1 => "0-1" | 2 => "0-2" | 3 => "0-3" | 4 => "0-4" | _ => "0-5"

/-- The station loop of updateTeamWifiBTU: one luci-bwc command per station in
order; a command error returns early with the error, a parse panic propagates
as none, and a parsed value is stored in the MBits field of that station. -/
def updateTeamWifiBTUAux (oracle : Nat → Except String String) :
    List (Fin 6) → World → Option (Option String × World)
  | [], w => some (none, w)
  | i :: rest, w =>
    let r := runCommandM oracle
      ("luci-bwc -i ath" ++ infWifiName w.ap.isVividType i) w
    match r.1 with
    | Except.error e => some (some ("Error getting BTU info from AP: " ++ e), r.2)
    | Except.ok output =>
      match parseBtu output with
      | none => none
      | some btu =>
        updateTeamWifiBTUAux oracle rest
          { r.2 with ap := { r.2.ap with TeamWifiStatuses := fun j =>
              if j = i then { (r.2.ap.TeamWifiStatuses i) with MBits := btu }
              else r.2.ap.TeamWifiStatuses j } }

/-- updateTeamWifiBTU from the source: a no op returning nil when network
security is disabled. -/
def updateTeamWifiBTU (oracle : Nat → Except String String) (w : World) :
    Option (Option String × World) :=
  if w.ap.networkSecurityEnabled = false then some (none, w)
  else updateTeamWifiBTUAux oracle (List.finRange 6) w

/-- The combined station and verification loop of configureTeams, with fuel
bounding the otherwise unbounded retries (none means fuel ran out).  The list
holds the stations still to configure in order; a command error retries the
same station, after the last station the commit, reload and verification
steps run, and a failed verification restarts the whole pass.  A generation
error is logged in Go and the command is still issued with an empty body. -/
def configureTeamsLoop (oracle : Nat → Except String String) :
    Nat → World → TeamAssignment → List (Fin 6) → Option World
  | 0, _, _, _ => none
  | Nat.succ fuel, w, teams, i :: rest =>
    let cfg := match generateTeamAccessPointConfig w.ap.isVividType (teams i)
                     ((i.val : Int) + 1) with
               | Except.ok c => c
               | Except.error _ => ""
    let r := runCommandM oracle (addConfigurationHeader cfg) w
    match r.1 with
    | Except.error _ => configureTeamsLoop oracle fuel r.2 teams (i :: rest)
    | Except.ok _ => configureTeamsLoop oracle fuel r.2 teams rest
  | Nat.succ fuel, w, teams, [] =>
    let w1 := (runCommandM oracle ("uci commit wireless") w).2
    let w2 := (runCommandM oracle ("wifi reload") w1).2
    let u := updateTeamWifiStatuses oracle w2
    if u.1.isNone && configIsCorrectForTeams u.2.ap teams then some u.2
    else configureTeamsLoop oracle fuel u.2 teams (List.finRange 6)

/-- configureTeams from the source, starting at the first station. -/
def configureTeams (oracle : Nat → Except String String) (fuel : Nat)
    (w : World) (teams : TeamAssignment) : Option World :=
  configureTeamsLoop oracle fuel w teams (List.finRange 6)

/-- handleTeamWifiConfiguration from the source: a no op when network security
is disabled; otherwise refresh status and skip when already correct, else for
the non vivid variant blank all stations first, then push the assignment. -/
def handleTeamWifiConfiguration (oracle : Nat → Except String String)
    (fuel : Nat) (w : World) (teams : TeamAssignment) : Option World :=
  if w.ap.networkSecurityEnabled = false then some w
  else
    let u := updateTeamWifiStatuses oracle w
    if u.1.isNone && configIsCorrectForTeams u.2.ap teams then some u.2
    else
      match (if u.2.ap.isVividType then some u.2
             else configureTeams oracle fuel u.2 (fun _ => none)) with
      | none => none
      | some w2 => configureTeams oracle fuel w2 teams

/-- One iteration of the Run loop: when requests are queued, all are drained,
the last one wins and is handled; otherwise the poll branch refreshes status
and bandwidth. -/
def runStep (oracle : Nat → Except String String) (fuel : Nat) (w : World) :
    Option World :=
  match w.ap.configRequestChan with
  | some (r :: rest) =>
    handleTeamWifiConfiguration oracle fuel
      { w with ap := { w.ap with configRequestChan := some [] } }
      (drainAll r rest)
  | _ =>
    let u := updateTeamWifiStatuses oracle w
    match updateTeamWifiBTU oracle u.2 with
    | none => none
    | some b => some b.2

/-- An oracle whose every command succeeds with empty output. -/
def oracle0 : Nat → Except String String := fun _ => Except.ok ("")

/-- An oracle whose every command succeeds with the six network sample dump. -/
def oracleGood : Nat → Except String String := fun _ => Except.ok sampleIwinfo

/-- The empty assignment. -/
def teamsNone : TeamAssignment := fun _ => none

/-- A nonempty assignment. -/
def teamsB : TeamAssignment := fun _ => some team8

/-- Another nonempty assignment. -/
def teamsC : TeamAssignment := fun _ => some team63

/-- A world with security disabled and the fetched flag false. -/
def worldDisabled : World :=
  { ap := initialAccessPoint, clock := 0, trace := [] }

/-- A world with security disabled and the fetched flag true. -/
def worldDisabledFetched : World :=
  { ap := { initialAccessPoint with initialStatusesFetched := true },
    clock := 0, trace := [] }

/-- A world with security enabled and the fetched flag true. -/
def worldEnabledFetched : World :=
  { ap := { initialAccessPoint with
      networkSecurityEnabled := true,
      initialStatusesFetched := true,
      configRequestChan := some [] },
    clock := 0, trace := [] }

/-- A world with security enabled and the fetched flag false. -/
def worldEnabledUnfetched : World :=
  { ap := { initialAccessPoint with
      networkSecurityEnabled := true,
      configRequestChan := some [] },
    clock := 0, trace := [] }

/-- An access point whose channel holds one request. -/
def apOneQueued : AccessPoint :=
  { initialAccessPoint with configRequestChan := some [teamsNone] }

/-- A queue of ten assignments, the channel capacity. -/
def fullQueue : List TeamAssignment := List.replicate 10 teamsNone

/-- An access point whose channel is full. -/
def apFullQueue : AccessPoint :=
  { initialAccessPoint with configRequestChan := some fullQueue }

/-- C4: generateTeamAccessPointConfig returns the invalid position error for
every position outside 1 to 6 regardless of the team argument; for every valid
position with no team assigned it succeeds, setting both the network name and
the passphrase to the placeholder no-team-position unique to that position, and
every generated command references the given station position. -/
theorem generate_config_position_and_placeholder (vivid : Bool)
    (team : Option Team) (p : Int) :
    (p < 1 ∨ p > 6 →
      generateTeamAccessPointConfig vivid team p =
        Except.error ("invalid team position " ++ toString p))
    ∧ (1 ≤ p → p ≤ 6 →
      generateTeamAccessPointConfig vivid none p =
        Except.ok (String.intercalate ("\n")
          (["set wireless.@wifi-iface[" ++ toString p ++ "].disabled=\x270\x27",
            "set wireless.@wifi-iface[" ++ toString p ++ "].ssid=\x27" ++
              ("no-team-" ++ toString p) ++ "\x27",
            "set wireless.@wifi-iface[" ++ toString p ++ "].key=\x27" ++
              ("no-team-" ++ toString p) ++ "\x27"]
           ++ (if vivid then
                ["set wireless.@wifi-iface[" ++ toString p ++
                   "].sae_password=\x27" ++ ("no-team-" ++ toString p) ++ "\x27"]
               else [])))) := by
  constructor
  · intro h
    unfold generateTeamAccessPointConfig
    rw [if_pos h]
  · intro h1 h2
    unfold generateTeamAccessPointConfig
    rw [if_neg (by omega)]
    simp only [teamSsidKey]

/-- Witness for C4 at positions 0, 7 and 3. -/
theorem generate_config_position_and_placeholder_witness :
    ((0 : Int) < 1 ∨ (0 : Int) > 6) ∧
    generateTeamAccessPointConfig true (some ⟨254, ("12345678")⟩) 0 =
      Except.error ("invalid team position " ++ toString (0 : Int)) ∧
    ((7 : Int) < 1 ∨ (7 : Int) > 6) ∧
    generateTeamAccessPointConfig false none 7 =
      Except.error ("invalid team position " ++ toString (7 : Int)) ∧
    generateTeamAccessPointConfig false none 3 =
      Except.ok (String.intercalate ("\n")
        (["set wireless.@wifi-iface[" ++ toString (3 : Int) ++ "].disabled=\x270\x27",
          "set wireless.@wifi-iface[" ++ toString (3 : Int) ++ "].ssid=\x27" ++
            ("no-team-" ++ toString (3 : Int)) ++ "\x27",
          "set wireless.@wifi-iface[" ++ toString (3 : Int) ++ "].key=\x27" ++
            ("no-team-" ++ toString (3 : Int)) ++ "\x27"]
         ++ (if false then
              ["set wireless.@wifi-iface[" ++ toString (3 : Int) ++
                 "].sae_password=\x27" ++ ("no-team-" ++ toString (3 : Int)) ++ "\x27"]
             else []))) :=
  ⟨Or.inl (by decide),
   (generate_config_position_and_placeholder true (some ⟨254, ("12345678")⟩) 0).1
     (Or.inl (by decide)),
   Or.inr (by decide),
   (generate_config_position_and_placeholder false none 7).1 (Or.inr (by decide)),
   (generate_config_position_and_placeholder false none 3).2 (by decide) (by decide)⟩

/-- C5: for every team and valid position, generateTeamAccessPointConfig rejects
the passphrase with the invalid WPA key error exactly when its byte length is
outside 8 to 63, and succeeds otherwise. -/
theorem generate_config_wpaKey_bounds (vivid : Bool) (t : Team) (p : Int)
    (h1 : 1 ≤ p) (h2 : p ≤ 6) :
    (t.WpaKey.utf8ByteSize < 8 ∨ t.WpaKey.utf8ByteSize > 63 →
      generateTeamAccessPointConfig vivid (some t) p =
        Except.error ("invalid WPA key \x27" ++ t.WpaKey ++
          "\x27 configured for team " ++ toString t.Id))
    ∧ (8 ≤ t.WpaKey.utf8ByteSize → t.WpaKey.utf8ByteSize ≤ 63 →
      ∃ cfg, generateTeamAccessPointConfig vivid (some t) p = Except.ok cfg) := by
  unfold generateTeamAccessPointConfig
  rw [if_neg (by omega)]
  simp only [teamSsidKey]
  constructor
  · intro h
    rw [if_pos h]
  · intro h8 h63
    rw [if_neg (by omega)]
    exact ⟨_, rfl⟩

/-- Witness for C5 at the boundary key lengths 7, 8, 63 and 64. -/
theorem generate_config_wpaKey_bounds_witness :
    ((1 : Int) ≤ 1 ∧ (1 : Int) ≤ 6) ∧
    (team7.WpaKey.utf8ByteSize < 8 ∨ team7.WpaKey.utf8ByteSize > 63) ∧
    (generateTeamAccessPointConfig false (some team7) 1 =
      Except.error ("invalid WPA key \x27" ++ team7.WpaKey ++
        "\x27 configured for team " ++ toString team7.Id)) ∧
    (team64.WpaKey.utf8ByteSize < 8 ∨ team64.WpaKey.utf8ByteSize > 63) ∧
    (generateTeamAccessPointConfig false (some team64) 1 =
      Except.error ("invalid WPA key \x27" ++ team64.WpaKey ++
        "\x27 configured for team " ++ toString team64.Id)) ∧
    (8 ≤ team8.WpaKey.utf8ByteSize ∧ team8.WpaKey.utf8ByteSize ≤ 63) ∧
    (∃ cfg, generateTeamAccessPointConfig false (some team8) 1 = Except.ok cfg) ∧
    (8 ≤ team63.WpaKey.utf8ByteSize ∧ team63.WpaKey.utf8ByteSize ≤ 63) ∧
    (∃ cfg, generateTeamAccessPointConfig true (some team63) 6 = Except.ok cfg) :=
  ⟨⟨by decide, by decide⟩,
   Or.inl (by decide),
   (generate_config_wpaKey_bounds false team7 1 (by decide) (by decide)).1
     (Or.inl (by decide)),
   Or.inr (by decide),
   (generate_config_wpaKey_bounds false team64 1 (by decide) (by decide)).1
     (Or.inr (by decide)),
   ⟨by decide, by decide⟩,
   (generate_config_wpaKey_bounds false team8 1 (by decide) (by decide)).2
     (by decide) (by decide),
   ⟨by decide, by decide⟩,
   (generate_config_wpaKey_bounds true team63 6 (by decide) (by decide)).2
     (by decide) (by decide)⟩

/-- Helper: on the success path, record i of the decoded status array is built
from the i-th name match and the i-th link quality match. -/
lemma decodeWifiInfo_success (wifiInfo : String) (sts : Fin 6 → TeamWifiStatus)
    (h : ¬ ((ssidMatches wifiInfo).length < 6 ∨ (linkQualityMatches wifiInfo).length < 6))
    (i : Fin 6) (name : String) (lq : String × String)
    (hname : (ssidMatches wifiInfo).get? i.val = some name)
    (hlq : (linkQualityMatches wifiInfo).get? i.val = some lq) :
    (decodeWifiInfo wifiInfo sts).1 = none ∧
    (decodeWifiInfo wifiInfo sts).2 i =
      { TeamId := goAtoi name, RadioLinked := lq.1 != ("unknown"),
        MBits := (sts i).MBits } := by
  have hb : i.val < (ssidMatches wifiInfo).length := by have := i.isLt; omega
  have hb2 : i.val < (linkQualityMatches wifiInfo).length := by have := i.isLt; omega
  rw [List.get?_eq_get hb] at hname
  rw [List.get?_eq_get hb2] at hlq
  have e1 := Option.some.inj hname
  have e2 := Option.some.inj hlq
  unfold decodeWifiInfo
  rw [dif_neg h]
  exact ⟨rfl, by rw [← e1, ← e2]⟩

/-- C2: decodeWifiInfo fails, with the expected message and the status array
left unchanged, exactly when fewer than six ESSID matches or fewer than six
link quality matches are found; with at least six of each it succeeds and
populates record i from the i-th decoded name and i-th link quality. -/
theorem decodeWifiInfo_spec (wifiInfo : String) (sts : Fin 6 → TeamWifiStatus) :
    ((ssidMatches wifiInfo).length < 6 ∨ (linkQualityMatches wifiInfo).length < 6 →
      decodeWifiInfo wifiInfo sts =
        (some ("Could not parse wifi info; expected 6 team networks, got " ++
          toString (ssidMatches wifiInfo).length ++ "."), sts))
    ∧ (¬ ((ssidMatches wifiInfo).length < 6 ∨ (linkQualityMatches wifiInfo).length < 6) →
      (decodeWifiInfo wifiInfo sts).1 = none ∧
      ∀ i : Fin 6, ∀ name : String, ∀ lq : String × String,
        (ssidMatches wifiInfo).get? i.val = some name →
        (linkQualityMatches wifiInfo).get? i.val = some lq →
        (decodeWifiInfo wifiInfo sts).2 i =
          { TeamId := goAtoi name, RadioLinked := lq.1 != ("unknown"),
            MBits := (sts i).MBits }) := by
  constructor
  · intro h
    unfold decodeWifiInfo
    rw [dif_pos h]
  · intro h
    constructor
    · unfold decodeWifiInfo
      rw [dif_neg h]
    · intro i name lq hname hlq
      exact (decodeWifiInfo_success wifiInfo sts h i name lq hname hlq).2

/-- Witness for C2: the empty dump fails with the message and unchanged
statuses; the six network sample dump succeeds and populates record 0 from
the first name and link quality matches. -/
theorem decodeWifiInfo_spec_witness :
    ((ssidMatches ("")).length < 6 ∨ (linkQualityMatches ("")).length < 6) ∧
    decodeWifiInfo ("") zeroStatuses =
      (some ("Could not parse wifi info; expected 6 team networks, got " ++
        toString (ssidMatches ("")).length ++ "."), zeroStatuses) ∧
    (¬ ((ssidMatches sampleIwinfo).length < 6 ∨
        (linkQualityMatches sampleIwinfo).length < 6)) ∧
    (ssidMatches sampleIwinfo).get? 0 = some ("254") ∧
    (linkQualityMatches sampleIwinfo).get? 0 = some (("70", "70")) ∧
    (decodeWifiInfo sampleIwinfo zeroStatuses).1 = none ∧
    (decodeWifiInfo sampleIwinfo zeroStatuses).2 0 =
      { TeamId := goAtoi ("254"), RadioLinked := (("70", "70")).1 != ("unknown"),
        MBits := (zeroStatuses 0).MBits } :=
  ⟨by decide,
   (decodeWifiInfo_spec ("") zeroStatuses).1 (by decide),
   by decide, by decide, by decide,
   ((decodeWifiInfo_spec sampleIwinfo zeroStatuses).2 (by decide)).1,
   ((decodeWifiInfo_spec sampleIwinfo zeroStatuses).2 (by decide)).2 0 ("254")
     (("70", "70")) (by decide) (by decide)⟩

/-- Counterexample to C3: the first decoded network name of overflowIwinfo is
the numeric string of 25 nines, decoding succeeds, yet the decoded teamId is
the saturated 64 bit bound, which is neither the denoted number nor 0,
because the range error of strconv.Atoi is discarded while the clamped value
is kept. -/
theorem decode_numeric_overflow_counterexample :
    isNumericStr ("9999999999999999999999999") = true ∧
    (ssidMatches overflowIwinfo).get? 0 = some ("9999999999999999999999999") ∧
    (decodeWifiInfo overflowIwinfo zeroStatuses).1 = none ∧
    ((decodeWifiInfo overflowIwinfo zeroStatuses).2 0).TeamId = int64Max ∧
    ¬ (int64Max = (9999999999999999999999999 : Int) ∨ int64Max = 0) :=
  ⟨by decide, by decide, by decide, by decide, by decide⟩

/-- C3 amended: on a successfully decoded record, a numeric name within the
signed 64 bit range becomes the teamId, a non numeric name gives teamId 0, a
numeric name beyond either 64 bit bound gives the saturated bound, and
radioLinked is false exactly when the link quality numerator is the literal
string unknown. -/
theorem decode_teamId_amended (wifiInfo : String) (sts : Fin 6 → TeamWifiStatus)
    (h : ¬ ((ssidMatches wifiInfo).length < 6 ∨ (linkQualityMatches wifiInfo).length < 6))
    (i : Fin 6) (name : String) (lq : String × String)
    (hname : (ssidMatches wifiInfo).get? i.val = some name)
    (hlq : (linkQualityMatches wifiInfo).get? i.val = some lq) :
    (numericValueOptChars name.data = none →
      ((decodeWifiInfo wifiInfo sts).2 i).TeamId = 0)
    ∧ (∀ v : Int, numericValueOptChars name.data = some v →
        (int64Min ≤ v → v ≤ int64Max →
          ((decodeWifiInfo wifiInfo sts).2 i).TeamId = v)
        ∧ (int64Max < v → ((decodeWifiInfo wifiInfo sts).2 i).TeamId = int64Max)
        ∧ (v < int64Min → ((decodeWifiInfo wifiInfo sts).2 i).TeamId = int64Min))
    ∧ ((decodeWifiInfo wifiInfo sts).2 i).RadioLinked = (lq.1 != ("unknown")) := by
  have hrec := (decodeWifiInfo_success wifiInfo sts h i name lq hname hlq).2
  rw [hrec]
  refine ⟨?_, ?_, rfl⟩
  · intro hn
    show goAtoi name = 0
    simp [goAtoi, goAtoiChars, hn]
  · intro v hv
    have hg : goAtoi name = clampInt64 v := by simp [goAtoi, goAtoiChars, hv]
    refine ⟨?_, ?_, ?_⟩
    · intro hlo hhi
      show goAtoi name = v
      rw [hg]
      unfold clampInt64
      rw [if_neg (by omega), if_neg (by omega)]
    · intro hover
      show goAtoi name = int64Max
      rw [hg]
      unfold clampInt64
      have hmm : int64Min < int64Max := by unfold int64Min int64Max; omega
      rw [if_neg (by omega), if_pos (by omega)]
    · intro hunder
      show goAtoi name = int64Min
      rw [hg]
      unfold clampInt64
      rw [if_pos (by omega)]

/-- Witness for the amended C3 on overflowIwinfo: record 0 has a numeric name
beyond the 64 bit range and decodes to the saturated bound; record 1 has a non
numeric placeholder name and decodes to teamId 0 with radioLinked false. -/
theorem decode_teamId_amended_witness :
    (¬ ((ssidMatches overflowIwinfo).length < 6 ∨
        (linkQualityMatches overflowIwinfo).length < 6)) ∧
    (ssidMatches overflowIwinfo).get? 0 = some ("9999999999999999999999999") ∧
    numericValueOptChars (("9999999999999999999999999") : String).data =
      some 9999999999999999999999999 ∧
    int64Max < (9999999999999999999999999 : Int) ∧
    ((decodeWifiInfo overflowIwinfo zeroStatuses).2 0).TeamId = int64Max ∧
    (ssidMatches overflowIwinfo).get? 1 = some ("no-team-2") ∧
    numericValueOptChars (("no-team-2") : String).data = none ∧
    ((decodeWifiInfo overflowIwinfo zeroStatuses).2 1).TeamId = 0 ∧
    ((decodeWifiInfo overflowIwinfo zeroStatuses).2 1).RadioLinked =
      ((("unknown", "70")).1 != ("unknown")) :=
  ⟨by decide, by decide, by decide, by decide,
   ((decode_teamId_amended overflowIwinfo zeroStatuses (by decide) 0
      ("9999999999999999999999999") (("70", "70")) (by decide) (by decide)).2.1
      9999999999999999999999999 (by decide)).2.1 (by decide),
   by decide, by decide,
   (decode_teamId_amended overflowIwinfo zeroStatuses (by decide) 1
      ("no-team-2") (("unknown", "70")) (by decide) (by decide)).1 (by decide),
   (decode_teamId_amended overflowIwinfo zeroStatuses (by decide) 1
      ("no-team-2") (("unknown", "70")) (by decide) (by decide)).2.2⟩

/-- C6: parseBtu returns 0 whenever at most six segments are present; with
more than six segments and referenced sample lines carrying their byte
counter fields, it returns the sum of the received and transmitted byte
deltas between the last sample and the sixth from last sample, converted to
megabits with the factor 0.000008 and divided by the 5 second window. -/
theorem parseBtu_spec (response : String) :
    (¬ 6 < (btuLines response).length → parseBtu response = some 0)
    ∧ (∀ h : 6 < (btuLines response).length,
       ∀ rX tX rXOld tXOld : List Char,
        (sampleFields ((btuLines response).get
          ⟨(btuLines response).length - 1, by omega⟩)).get? 1 = some rX →
        (sampleFields ((btuLines response).get
          ⟨(btuLines response).length - 1, by omega⟩)).get? 3 = some tX →
        (sampleFields ((btuLines response).get
          ⟨(btuLines response).length - 6, by omega⟩)).get? 1 = some rXOld →
        (sampleFields ((btuLines response).get
          ⟨(btuLines response).length - 6, by omega⟩)).get? 3 = some tXOld →
        int64Min ≤ (goAtoiChars (goTrimSpace rX) - goAtoiChars (goTrimSpace rXOld))
          + (goAtoiChars (goTrimSpace tX) - goAtoiChars (goTrimSpace tXOld)) →
        (goAtoiChars (goTrimSpace rX) - goAtoiChars (goTrimSpace rXOld))
          + (goAtoiChars (goTrimSpace tX) - goAtoiChars (goTrimSpace tXOld)) ≤ int64Max →
        parseBtu response =
          some ((((goAtoiChars (goTrimSpace rX) - goAtoiChars (goTrimSpace rXOld))
            + (goAtoiChars (goTrimSpace tX) - goAtoiChars (goTrimSpace tXOld)) : Int) : ℚ)
            * (0.000008 : ℚ) / 5)) := by
  constructor
  · intro h
    unfold parseBtu
    rw [dif_neg h]
  · intro h rX tX rXOld tXOld h1 h2 h3 h4 hlo hhi
    unfold parseBtu
    rw [dif_pos h, h1, h2, h3, h4]
    have hw : wrap64 (goAtoiChars (goTrimSpace rX) - goAtoiChars (goTrimSpace rXOld)
        + goAtoiChars (goTrimSpace tX) - goAtoiChars (goTrimSpace tXOld))
        = (goAtoiChars (goTrimSpace rX) - goAtoiChars (goTrimSpace rXOld))
          + (goAtoiChars (goTrimSpace tX) - goAtoiChars (goTrimSpace tXOld)) := by
      unfold wrap64
      simp only [int64Min] at hlo
      simp only [int64Max] at hhi
      omega
    exact congrArg
      (fun z : Int => some ((z : ℚ) * (0.000008 : ℚ) / 5)) hw

/-- Witness for C6 on a seven sample dump: the deltas are 90 received and 90
transmitted bytes, giving 180 bytes over the 5 second window. -/
theorem parseBtu_spec_witness :
    (¬ 6 < (btuLines ("")).length) ∧
    parseBtu ("") = some 0 ∧
    6 < (btuLines sampleBtu).length ∧
    (sampleFields ((btuLines sampleBtu).get
      ⟨(btuLines sampleBtu).length - 1, by decide⟩)).get? 1 = some ((" 110").data) ∧
    (sampleFields ((btuLines sampleBtu).get
      ⟨(btuLines sampleBtu).length - 1, by decide⟩)).get? 3 = some ((" 120").data) ∧
    (sampleFields ((btuLines sampleBtu).get
      ⟨(btuLines sampleBtu).length - 6, by decide⟩)).get? 1 = some ((" 20").data) ∧
    (sampleFields ((btuLines sampleBtu).get
      ⟨(btuLines sampleBtu).length - 6, by decide⟩)).get? 3 = some ((" 30").data) ∧
    parseBtu sampleBtu =
      some ((((goAtoiChars (goTrimSpace ((" 110").data)) - goAtoiChars (goTrimSpace ((" 20").data)))
        + (goAtoiChars (goTrimSpace ((" 120").data)) - goAtoiChars (goTrimSpace ((" 30").data))) : Int) : ℚ)
        * (0.000008 : ℚ) / 5) ∧
    (goAtoiChars (goTrimSpace ((" 110").data)) - goAtoiChars (goTrimSpace ((" 20").data)))
      + (goAtoiChars (goTrimSpace ((" 120").data)) - goAtoiChars (goTrimSpace ((" 30").data))) = 180 :=
  ⟨by decide,
   (parseBtu_spec ("")).1 (by decide),
   by decide, by decide, by decide, by decide, by decide,
   (parseBtu_spec sampleBtu).2 (by decide) ((" 110").data) ((" 120").data)
     ((" 20").data) ((" 30").data) (by decide) (by decide) (by decide) (by decide)
     (by decide) (by decide),
   by decide⟩

/-- C9: the out of bounds branch of parseBtu is reachable.  On badBtu there
are seven segments, so the guard passes, but the referenced sample lines have
a single comma separated field, so the Go code indexes lastCnt at position 1
out of range and panics; the model returns none. -/
theorem parseBtu_out_of_bounds :
    (btuLines badBtu).length = 7 ∧
    (sampleFields ((btuLines badBtu).get ⟨6, by decide⟩)).get? 1 = none ∧
    parseBtu badBtu = none :=
  ⟨by decide, by decide, by decide⟩

/-- Helper: updateTeamWifiStatuses never resets a true fetched flag. -/
lemma updateTeamWifiStatuses_flag_mono (oracle : Nat → Except String String)
    (w : World) (h : w.ap.initialStatusesFetched = true) :
    ((updateTeamWifiStatuses oracle w).2).ap.initialStatusesFetched = true := by
  simp only [updateTeamWifiStatuses]
  split
  · exact h
  · split
    · exact h
    · split
      · exact h
      · rfl

/-- Helper: updateTeamWifiStatuses never touches the request channel. -/
lemma updateTeamWifiStatuses_chan (oracle : Nat → Except String String)
    (w : World) :
    ((updateTeamWifiStatuses oracle w).2).ap.configRequestChan =
      w.ap.configRequestChan := by
  simp only [updateTeamWifiStatuses]
  split
  · rfl
  · split
    · rfl
    · split
      · rfl
      · rfl

/-- Helper: the bandwidth station loop only rewrites the status array, leaving
the fetched flag and the request channel unchanged. -/
lemma updateTeamWifiBTUAux_frame (oracle : Nat → Except String String) :
    ∀ (l : List (Fin 6)) (w : World) (res : Option String × World),
      updateTeamWifiBTUAux oracle l w = some res →
      res.2.ap.initialStatusesFetched = w.ap.initialStatusesFetched ∧
      res.2.ap.configRequestChan = w.ap.configRequestChan := by
  intro l
  induction l with
  | nil =>
    intro w res h
    simp only [updateTeamWifiBTUAux] at h
    injection h with h2
    subst h2
    exact ⟨rfl, rfl⟩
  | cons i rest ih =>
    intro w res h
    simp only [updateTeamWifiBTUAux] at h
    split at h
    · injection h with h2
      subst h2
      exact ⟨rfl, rfl⟩
    · split at h
      · exact Option.noConfusion h
      · have h5 := ih _ _ h
        exact h5

/-- Helper: updateTeamWifiBTU preserves the fetched flag and the channel. -/
lemma updateTeamWifiBTU_frame (oracle : Nat → Except String String)
    (w : World) (res : Option String × World)
    (h : updateTeamWifiBTU oracle w = some res) :
    res.2.ap.initialStatusesFetched = w.ap.initialStatusesFetched ∧
    res.2.ap.configRequestChan = w.ap.configRequestChan := by
  simp only [updateTeamWifiBTU] at h
  split at h
  · injection h with h2
    subst h2
    exact ⟨rfl, rfl⟩
  · exact updateTeamWifiBTUAux_frame oracle _ _ _ h

/-- Helper: the configuration loop never resets a true fetched flag. -/
lemma configureTeamsLoop_flag_mono (oracle : Nat → Except String String) :
    ∀ (fuel : Nat) (w : World) (teams : TeamAssignment) (l : List (Fin 6))
      (wOut : World),
      configureTeamsLoop oracle fuel w teams l = some wOut →
      w.ap.initialStatusesFetched = true →
      wOut.ap.initialStatusesFetched = true := by
  intro fuel
  induction fuel with
  | zero =>
    intro w teams l wOut h hf
    simp only [configureTeamsLoop] at h
    exact Option.noConfusion h
  | succ n ih =>
    intro w teams l wOut h hf
    cases l with
    | cons i rest =>
      simp only [configureTeamsLoop] at h
      split at h
      · exact ih _ _ _ _ h hf
      · exact ih _ _ _ _ h hf
    | nil =>
      simp only [configureTeamsLoop] at h
      split at h
      · injection h with h2
        subst h2
        exact updateTeamWifiStatuses_flag_mono oracle _ hf
      · exact ih _ _ _ _ h (updateTeamWifiStatuses_flag_mono oracle _ hf)

/-- Helper: the team configuration handler never resets a true fetched flag. -/
lemma handleTeamWifiConfiguration_flag_mono (oracle : Nat → Except String String)
    (fuel : Nat) (w : World) (teams : TeamAssignment) (wOut : World)
    (h : handleTeamWifiConfiguration oracle fuel w teams = some wOut)
    (hf : w.ap.initialStatusesFetched = true) :
    wOut.ap.initialStatusesFetched = true := by
  simp only [handleTeamWifiConfiguration] at h
  split at h
  · injection h with h2
    subst h2
    exact hf
  · split at h
    · injection h with h2
      subst h2
      exact updateTeamWifiStatuses_flag_mono oracle _ hf
    · split at h
      · exact Option.noConfusion h
      · next wMid heq =>
        have hMid : wMid.ap.initialStatusesFetched = true := by
          split at heq
          · injection heq with h3
            subst h3
            exact updateTeamWifiStatuses_flag_mono oracle _ hf
          · exact configureTeamsLoop_flag_mono oracle _ _ _ _ _ heq
              (updateTeamWifiStatuses_flag_mono oracle _ hf)
        exact configureTeamsLoop_flag_mono oracle _ _ _ _ _ h hMid

/-- C1: configIsCorrectForTeams is false whenever the fetched flag is false,
whatever the stored statuses; and the flag is monotone: it is set to true only
by a successful status fetch and no modeled operation, including the settings
update, queue submission, admin configuration, status and bandwidth refresh,
configuration handler and the Run iteration, ever resets a true flag. -/
theorem fetched_flag_gates_and_monotone :
    (∀ (ap : AccessPoint) (teams : TeamAssignment),
      ap.initialStatusesFetched = false →
      configIsCorrectForTeams ap teams = false)
    ∧ (∀ (vivid : Bool) (a u p : String) (c : Int) (sec : Bool) (ap : AccessPoint),
        (SetSettings vivid a u p c sec ap).initialStatusesFetched =
          ap.initialStatusesFetched)
    ∧ (∀ (teams : TeamAssignment) (ap : AccessPoint),
        (ConfigureTeamWifi teams ap).1.initialStatusesFetched =
          ap.initialStatusesFetched)
    ∧ (∀ (oracle : Nat → Except String String) (w : World),
        (ConfigureAdminSettings oracle w).2.ap.initialStatusesFetched =
          w.ap.initialStatusesFetched)
    ∧ (∀ (oracle : Nat → Except String String) (w : World),
        w.ap.initialStatusesFetched = true →
        ((updateTeamWifiStatuses oracle w).2).ap.initialStatusesFetched = true)
    ∧ (∀ (oracle : Nat → Except String String) (w : World)
        (res : Option String × World),
        updateTeamWifiBTU oracle w = some res →
        res.2.ap.initialStatusesFetched = w.ap.initialStatusesFetched)
    ∧ (∀ (oracle : Nat → Except String String) (fuel : Nat) (w : World)
        (teams : TeamAssignment) (wOut : World),
        handleTeamWifiConfiguration oracle fuel w teams = some wOut →
        w.ap.initialStatusesFetched = true →
        wOut.ap.initialStatusesFetched = true)
    ∧ (∀ (oracle : Nat → Except String String) (fuel : Nat) (w wOut : World),
        runStep oracle fuel w = some wOut →
        w.ap.initialStatusesFetched = true →
        wOut.ap.initialStatusesFetched = true) := by
  refine ⟨?_, ?_, ?_, ?_, ?_, ?_, ?_, ?_⟩
  · intro ap teams h
    simp [configIsCorrectForTeams, h]
  · intro vivid a u p c sec ap
    simp only [SetSettings]
    split
    · rfl
    · rfl
  · intro teams ap
    simp only [ConfigureTeamWifi]
    split
    · split
      · rfl
      · rfl
    · rfl
  · intro oracle w
    simp only [ConfigureAdminSettings]
    split
    · rfl
    · split
      · rfl
      · rfl
  · exact updateTeamWifiStatuses_flag_mono
  · intro oracle w res h
    exact (updateTeamWifiBTU_frame oracle w res h).1
  · exact handleTeamWifiConfiguration_flag_mono
  · intro oracle fuel w wOut h hf
    simp only [runStep] at h
    split at h
    · exact handleTeamWifiConfiguration_flag_mono oracle fuel _ _ _ h hf
    · split at h
      · exact Option.noConfusion h
      · next b heq =>
        injection h with h2
        subst h2
        have h5 := (updateTeamWifiBTU_frame oracle _ _ heq).1
        rw [h5]
        exact updateTeamWifiStatuses_flag_mono oracle _ hf

/-- Witness for C1: on the zero valued initial state the stored team ids all
match the empty assignment, yet the correctness check is false because the
flag is false; the modeled operations preserve a true flag at concrete
states, and a successful fetch sets it. -/
theorem fetched_flag_gates_and_monotone_witness :
    initialAccessPoint.initialStatusesFetched = false ∧
    (∀ i : Fin 6,
      (initialAccessPoint.TeamWifiStatuses i).TeamId = expectedTeamId (teamsNone i)) ∧
    configIsCorrectForTeams initialAccessPoint teamsNone = false ∧
    (SetSettings false ("") ("") ("") 0 false initialAccessPoint).initialStatusesFetched =
      initialAccessPoint.initialStatusesFetched ∧
    (ConfigureTeamWifi teamsNone apOneQueued).1.initialStatusesFetched =
      apOneQueued.initialStatusesFetched ∧
    (ConfigureAdminSettings oracle0 worldEnabledFetched).2.ap.initialStatusesFetched =
      worldEnabledFetched.ap.initialStatusesFetched ∧
    worldEnabledFetched.ap.initialStatusesFetched = true ∧
    ((updateTeamWifiStatuses oracle0 worldEnabledFetched).2).ap.initialStatusesFetched = true ∧
    updateTeamWifiBTU oracle0 worldDisabledFetched =
      some ((none, worldDisabledFetched) : Option String × World) ∧
    ((none, worldDisabledFetched) : Option String × World).2.ap.initialStatusesFetched =
      worldDisabledFetched.ap.initialStatusesFetched ∧
    handleTeamWifiConfiguration oracle0 3 worldDisabledFetched teamsNone =
      some worldDisabledFetched ∧
    worldDisabledFetched.ap.initialStatusesFetched = true ∧
    runStep oracle0 3 worldDisabledFetched = some worldDisabledFetched ∧
    worldDisabledFetched.ap.initialStatusesFetched = true ∧
    ((updateTeamWifiStatuses oracleGood worldEnabledUnfetched).2).ap.initialStatusesFetched = true :=
  ⟨rfl,
   by decide,
   (fetched_flag_gates_and_monotone).1 initialAccessPoint teamsNone rfl,
   (fetched_flag_gates_and_monotone).2.1 false ("") ("") ("") 0 false initialAccessPoint,
   (fetched_flag_gates_and_monotone).2.2.1 teamsNone apOneQueued,
   (fetched_flag_gates_and_monotone).2.2.2.1 oracle0 worldEnabledFetched,
   rfl,
   (fetched_flag_gates_and_monotone).2.2.2.2.1 oracle0 worldEnabledFetched rfl,
   rfl,
   (fetched_flag_gates_and_monotone).2.2.2.2.2.1 oracle0 worldDisabledFetched
     ((none, worldDisabledFetched) : Option String × World) rfl,
   rfl,
   (fetched_flag_gates_and_monotone).2.2.2.2.2.2.1 oracle0 3 worldDisabledFetched
     teamsNone worldDisabledFetched rfl rfl,
   rfl,
   (fetched_flag_gates_and_monotone).2.2.2.2.2.2.2 oracle0 3 worldDisabledFetched
     worldDisabledFetched rfl rfl,
   rfl⟩

/-- Helper: the surviving request of the drain loop is the last queued one. -/
lemma drainAll_getLast : ∀ (rest : List TeamAssignment) (r : TeamAssignment),
    (r :: rest).getLast? = some (drainAll r rest) := by
  intro rest
  induction rest with
  | nil => intro r; rfl
  | cons b l ih =>
    intro r
    rw [List.getLast?_cons_cons]
    exact ih b

/-- C7: ConfigureTeamWifi is total and nonblocking on every queue state: with
free buffer space the assignment is appended and nil is returned, on a full
buffer the queue full error is returned with the state unchanged; and the Run
pickup drains the queue completely and hands over exactly the most recently
queued assignment. -/
theorem configure_team_wifi_nonblocking_and_latest_wins :
    (∀ (ap : AccessPoint) (teams : TeamAssignment) (q : List TeamAssignment),
      ap.configRequestChan = some q →
      (q.length < accessPointRequestBufferSize →
        ConfigureTeamWifi teams ap =
          ({ ap with configRequestChan := some (q ++ [teams]) }, none))
      ∧ (¬ q.length < accessPointRequestBufferSize →
        ConfigureTeamWifi teams ap =
          (ap, some ("WiFi config request buffer full"))))
    ∧ (∀ (r : TeamAssignment) (rest : List TeamAssignment),
        runPickup (r :: rest) = some (drainAll r rest, [])
        ∧ (r :: rest).getLast? = some (drainAll r rest)) := by
  constructor
  · intro ap teams q hq
    constructor
    · intro hlen
      simp only [ConfigureTeamWifi, hq]
      rw [if_pos hlen]
    · intro hlen
      simp only [ConfigureTeamWifi, hq]
      rw [if_neg hlen]
  · intro r rest
    exact ⟨rfl, drainAll_getLast rest r⟩

/-- Witness for C7: a one element queue accepts an assignment, a ten element
queue rejects it unchanged, and picking up a three element queue empties it
and hands over the third queued assignment. -/
theorem configure_team_wifi_nonblocking_witness :
    apOneQueued.configRequestChan = some [teamsNone] ∧
    ([teamsNone] : List TeamAssignment).length < accessPointRequestBufferSize ∧
    ConfigureTeamWifi teamsB apOneQueued =
      ({ apOneQueued with configRequestChan := some ([teamsNone] ++ [teamsB]) }, none) ∧
    apFullQueue.configRequestChan = some fullQueue ∧
    ¬ fullQueue.length < accessPointRequestBufferSize ∧
    ConfigureTeamWifi teamsB apFullQueue =
      (apFullQueue, some ("WiFi config request buffer full")) ∧
    runPickup ([teamsNone, teamsB, teamsC]) =
      some (drainAll teamsNone ([teamsB, teamsC]), []) ∧
    ([teamsNone, teamsB, teamsC] : List TeamAssignment).getLast? =
      some (drainAll teamsNone ([teamsB, teamsC])) ∧
    drainAll teamsNone ([teamsB, teamsC]) = teamsC :=
  ⟨rfl,
   by decide,
   ((configure_team_wifi_nonblocking_and_latest_wins).1 apOneQueued teamsB
     ([teamsNone]) rfl).1 (by decide),
   rfl,
   by decide,
   ((configure_team_wifi_nonblocking_and_latest_wins).1 apFullQueue teamsB
     fullQueue rfl).2 (by decide),
   ((configure_team_wifi_nonblocking_and_latest_wins).2 teamsNone ([teamsB, teamsC])).1,
   ((configure_team_wifi_nonblocking_and_latest_wins).2 teamsNone ([teamsB, teamsC])).2,
   rfl⟩

/-- C8: with network security disabled the controller is a no op pass
through: admin configuration, the team configuration handler and the status
and bandwidth updates return nil and leave the whole world unchanged, so no
remote command is issued and the status array and fetched flag are kept. -/
theorem security_disabled_noop (oracle : Nat → Except String String)
    (fuel : Nat) (w : World) (teams : TeamAssignment)
    (h : w.ap.networkSecurityEnabled = false) :
    ConfigureAdminSettings oracle w = (none, w)
    ∧ handleTeamWifiConfiguration oracle fuel w teams = some w
    ∧ updateTeamWifiStatuses oracle w = (none, w)
    ∧ updateTeamWifiBTU oracle w = some ((none, w) : Option String × World) := by
  refine ⟨?_, ?_, ?_, ?_⟩
  · simp only [ConfigureAdminSettings]
    rw [if_pos h]
  · simp only [handleTeamWifiConfiguration]
    rw [if_pos h]
  · simp only [updateTeamWifiStatuses]
    rw [if_pos h]
  · simp only [updateTeamWifiBTU]
    rw [if_pos h]

/-- Witness for C8 at a concrete disabled state. -/
theorem security_disabled_noop_witness :
    worldDisabled.ap.networkSecurityEnabled = false ∧
    ConfigureAdminSettings oracle0 worldDisabled = (none, worldDisabled) ∧
    handleTeamWifiConfiguration oracle0 5 worldDisabled teamsNone = some worldDisabled ∧
    updateTeamWifiStatuses oracle0 worldDisabled = (none, worldDisabled) ∧
    updateTeamWifiBTU oracle0 worldDisabled =
      some ((none, worldDisabled) : Option String × World) :=
  ⟨rfl,
   (security_disabled_noop oracle0 5 worldDisabled teamsNone rfl).1,
   (security_disabled_noop oracle0 5 worldDisabled teamsNone rfl).2.1,
   (security_disabled_noop oracle0 5 worldDisabled teamsNone rfl).2.2.1,
   (security_disabled_noop oracle0 5 worldDisabled teamsNone rfl).2.2.2⟩

/-- C10: before any SetSettings call the request channel is nil, and with a
nil channel ConfigureTeamWifi returns the queue full error immediately with
the state unchanged, silently losing the assignment; the first SetSettings
call creates the channel, and the status, bandwidth and admin operations
never touch it. -/
theorem nil_channel_rejects_assignments :
    initialAccessPoint.configRequestChan = none
    ∧ (∀ (ap : AccessPoint) (teams : TeamAssignment),
        ap.configRequestChan = none →
        ConfigureTeamWifi teams ap =
          (ap, some ("WiFi config request buffer full")))
    ∧ (∀ (vivid : Bool) (a u p : String) (c : Int) (sec : Bool) (ap : AccessPoint),
        (SetSettings vivid a u p c sec ap).configRequestChan.isSome = true)
    ∧ (∀ (oracle : Nat → Except String String) (w : World),
        (updateTeamWifiStatuses oracle w).2.ap.configRequestChan =
          w.ap.configRequestChan)
    ∧ (∀ (oracle : Nat → Except String String) (w : World)
        (res : Option String × World),
        updateTeamWifiBTU oracle w = some res →
        res.2.ap.configRequestChan = w.ap.configRequestChan)
    ∧ (∀ (oracle : Nat → Except String String) (w : World),
        (ConfigureAdminSettings oracle w).2.ap.configRequestChan =
          w.ap.configRequestChan) := by
  refine ⟨rfl, ?_, ?_, ?_, ?_, ?_⟩
  · intro ap teams hq
    simp only [ConfigureTeamWifi, hq]
  · intro vivid a u p c sec ap
    cases hc : ap.configRequestChan with
    | none => simp [SetSettings, hc]
    | some q => simp [SetSettings, hc]
  · exact updateTeamWifiStatuses_chan
  · intro oracle w res h
    exact (updateTeamWifiBTU_frame oracle w res h).2
  · intro oracle w
    simp only [ConfigureAdminSettings]
    split
    · rfl
    · split
      · rfl
      · rfl

/-- Witness for C10 at the zero valued initial state. -/
theorem nil_channel_rejects_assignments_witness :
    initialAccessPoint.configRequestChan = none ∧
    ConfigureTeamWifi teamsB initialAccessPoint =
      (initialAccessPoint, some ("WiFi config request buffer full")) ∧
    (SetSettings true ("10.0.100.2") ("root") ("pw") 36 true
      initialAccessPoint).configRequestChan.isSome = true ∧
    updateTeamWifiBTU oracle0 worldDisabled =
      some ((none, worldDisabled) : Option String × World) ∧
    ((none, worldDisabled) : Option String × World).2.ap.configRequestChan =
      worldDisabled.ap.configRequestChan :=
  ⟨(nil_channel_rejects_assignments).1,
   (nil_channel_rejects_assignments).2.1 initialAccessPoint teamsB rfl,
   (nil_channel_rejects_assignments).2.2.1 true ("10.0.100.2") ("root") ("pw") 36
     true initialAccessPoint,
   rfl,
   (nil_channel_rejects_assignments).2.2.2.2.1 oracle0 worldDisabled
     ((none, worldDisabled) : Option String × World) rfl⟩
